import Mathlib

/-!
Verification of the keyboard-backlight daemon `kbsv.py`.

The development shallowly embeds the two stateful components of the daemon:

* `BacklightManager` (source lines 236-291): the fade controller that animates
  the brightness file.  The asynchronous fade bodies `_turn_off` / `_turn_on`
  suspend only at `asyncio.sleep`, so the embedding splits each task into its
  prologue (everything before the first `await`, run by `startBody`) and its
  per-tick action (everything between two sleeps, run by `tick`).  Cancellation
  of a task is replacement of the `_current_task` slot, which happens while the
  task is parked at a sleep, so a cancelled task performs no further action.
* `Session` (source lines 48-233): the session directory.  External commands
  (`loginctl`, `busctl`, `pidof`, `/proc` reads) are an oracle `SessEnv` that is
  constant during one call; the class attributes `_sessions`, `_last_session`,
  `_pid_map` form the state `SessState`.  Invocations of
  `BacklightManager.turn_on` / `turn_off` made during session handling are
  recorded in an effect log.
-/

namespace Kbsv

/-- Direction tag of a fade task: the `name=` given to `asyncio.create_task`
at source lines 249 and 258. -/
inductive FadeDir where
  | off
  | on
deriving DecidableEq, Repr

/-- Phase of the fade task occupying the `_current_task` slot.
`createdOff`/`createdOn` : task created, body not yet scheduled;
`runOff i`  : `_turn_off` past its prologue, pending writes `i, i-1, ..., 0`;
`runOn next stop` : `_turn_on` past its prologue, pending writes
`next, ..., stop` (the bounds of `range(current+1, saved+1)` are materialised
when the loop starts);
`doneOff`/`doneOn` : body returned. -/
inductive FadeTask where
  | createdOff
  | createdOn
  | runOff (i : Nat)
  | runOn (next stop : Nat)
  | doneOff
  | doneOn
deriving DecidableEq, Repr

/-- The direction tag of a task (`Task.get_name` in the source). -/
def FadeTask.dir : FadeTask → FadeDir
  | .createdOff | .runOff _ | .doneOff => .off
  | .createdOn | .runOn _ _ | .doneOn => .on

/-- State of `BacklightManager` (source lines 236-240) together with the
brightness file it owns: `hw` is the integer currently held by
`BRIGHTNESS_FILE` (the file is single-writer, only the fades write it),
`writes` is the chronological log of values written to it. -/
structure BState where
  is_off : Bool
  saved_brightness : Nat
  current_brightness : Nat
  hw : Nat
  writes : List Nat
  task : Option FadeTask
deriving DecidableEq, Repr

/-- Initial state: the class initialisers at source lines 237-240
(`is_off = False`, `saved_brightness = 0`, `current_brightness = 0`,
`_current_task = None`) with `h` the initial content of the brightness file. -/
def mkInit (h : Nat) : BState :=
  { is_off := false, saved_brightness := 0, current_brightness := 0
    hw := h, writes := [], task := none }

/-- `BacklightManager.turn_off` (source lines 242-249): if a task is present
and its name is not `"off"`, cancel it and install a fresh `"off"` task; if its
name is `"off"`, return without doing anything; if no task is present, install
a fresh `"off"` task. -/
def turn_off (s : BState) : BState :=
  match s.task with
  | some t => if t.dir = .off then s else { s with task := some .createdOff }
  | none => { s with task := some .createdOff }

/-- `BacklightManager.turn_on` (source lines 251-258), mirror image of
`turn_off`. -/
def turn_on (s : BState) : BState :=
  match s.task with
  | some t => if t.dir = .on then s else { s with task := some .createdOn }
  | none => { s with task := some .createdOn }

/-- Run a created task's body up to its first `await asyncio.sleep`.
For `_turn_off` (source lines 261-267) that is: return at once if `is_off`;
otherwise set `is_off := true` (line 264), read `saved_brightness` from the
brightness file (line 266) and enter the loop `range(saved_brightness, -1, -1)`
whose first pending write is `saved_brightness` itself.
For `_turn_on` (source lines 273-279): return at once if not `is_off`;
otherwise enter the loop `range(current_brightness + 1, saved_brightness + 1)`;
when that range is empty the loop body never runs and `is_off := false`
(line 284) executes immediately, still before any suspension. -/
def startBody (s : BState) : BState :=
  match s.task with
  | some .createdOff =>
    if s.is_off then { s with task := some .doneOff }
    else
      { s with is_off := true, saved_brightness := s.hw
               task := some (.runOff s.hw) }
  | some .createdOn =>
    if s.is_off then
      if s.saved_brightness ≤ s.current_brightness then
        { s with is_off := false, task := some .doneOn }
      else
        { s with task := some (.runOn (s.current_brightness + 1) s.saved_brightness) }
    else { s with task := some .doneOn }
  | _ => s

/-- Run one tick of the running fade, i.e. the loop body between two sleeps.
`_turn_off` tick (source lines 268-271): `current_brightness := i`, write `i`;
after writing `0` the loop ends and the body returns.
`_turn_on` tick (source lines 281-283): write `i` (note the source never
updates `current_brightness` here); after writing the upper bound the loop
ends and `is_off := false` (line 284) runs with no suspension in between. -/
def tick (s : BState) : BState :=
  match s.task with
  | some (.runOff i) =>
    { s with current_brightness := i, hw := i, writes := s.writes ++ [i]
             task := some (if i = 0 then .doneOff else .runOff (i - 1)) }
  | some (.runOn n stop) =>
    if n = stop then
      { s with hw := n, writes := s.writes ++ [n], is_off := false
               task := some .doneOn }
    else
      { s with hw := n, writes := s.writes ++ [n]
               task := some (.runOn (n + 1) stop) }
  | _ => s

/-- Iterate `tick`. -/
def ticks : Nat → BState → BState
  | 0, s => s
  | n + 1, s => ticks n (tick s)

/-- One scheduler step of the backlight subsystem: a `turn_off` or `turn_on`
request arriving from the timer or a listener, the event loop first running a
created task's body, or the event loop resuming a running fade at its sleep. -/
inductive BStep : BState → BState → Prop
  | reqOff (s : BState) : BStep s (turn_off s)
  | reqOn (s : BState) : BStep s (turn_on s)
  | start (s : BState) : BStep s (startBody s)
  | tickStep (s : BState) : BStep s (tick s)

/-- The backlight states reachable from startup with initial brightness `h`. -/
def Reach (h : Nat) (s : BState) : Prop :=
  Relation.ReflTransGen BStep (mkInit h) s

/-- Auxiliary invariant on the task slot. -/
def taskOK (s : BState) : Prop :=
  match s.task with
  | some (.runOff i) => i ≤ s.saved_brightness
  | some (.runOn n stop) =>
    stop = s.saved_brightness ∧ s.current_brightness < n ∧ n ≤ stop
  | _ => True

/-- Inductive invariant of the backlight subsystem. -/
def Inv (s : BState) : Prop :=
  s.current_brightness ≤ s.saved_brightness ∧ s.current_brightness ≤ s.hw ∧ taskOK s

/-! ## Session directory -/

/-- Calls made by session handling into the backlight manager or the timer,
recorded in order of occurrence. -/
inductive Effect where
  | turnOn
  | turnOff
deriving DecidableEq, Repr

/-- The `loginctl show-session` answer for one session: `Active == "yes"`,
`Seat` non-empty, the `Name` property, and the `Display` property
(`none` models an empty `Display` value, which is falsy at source line 94). -/
structure SessInfo where
  active : Bool
  seat : Bool
  user : String
  display : Option String
deriving Repr

/-- Oracle for the external commands consulted during one call into the
session directory; it is constant for the duration of the call.
`info name = none` models `loginctl show-session` failing with
`CalledProcessError` (session gone).  `getSessionByPID pid = none` models the
`busctl ... GetSessionByPID` call failing with `CalledProcessError`;
`sessionIdOf` is the follow-up `busctl get-property ... Id` on the returned
object path (assumed to succeed once the first call did).  `cmdline pid` is
the argument list read from `/proc/pid/cmdline` (`none`: `FileNotFoundError`).
`xPids` is the output of `pidof X_PROGRAM`, `listSessions` the session names
from `loginctl list-sessions`. -/
structure SessEnv where
  info : String → Option SessInfo
  xPids : List Nat
  getSessionByPID : Nat → Option String
  sessionIdOf : String → String
  cmdline : Nat → Option (List String)
  listSessions : List String

/-- Keys of the `_pid_map` dict: session-id strings inserted at source lines
171-187, or the distinct `CalledProcessError` exception objects inserted at
source line 169 (each failure produces a fresh object, numbered here). -/
inductive PKey where
  | sess (name : String)
  | err (eid : Nat)
deriving DecidableEq, Repr

/-- One `Session` instance (source lines 53-57): `display` is the `_display`
cache, `task` records whether `_task` holds a watcher task, `user` is the
`_user` attribute. -/
structure Session where
  name : String
  display : Option String := none
  task : Bool := false
  user : Option String := none
deriving DecidableEq, Repr

/-- `Session.start` (source lines 135-137) as a function of the instance:
spawn a watcher only when this session's own `_task` is `None`. -/
def Session.start (s : Session) : Session :=
  if s.task then s else { s with task := true }

/-- Lookup in an insertion-ordered dict modelled as an association list. -/
def lookupA {α β : Type} [DecidableEq α] : List (α × β) → α → Option β
  | [], _ => none
  | (k, v) :: rest, a => if k = a then some v else lookupA rest a

/-- Dict deletion: remove the (unique) entry with the given key. -/
def eraseA {α β : Type} [DecidableEq α] : List (α × β) → α → List (α × β)
  | [], _ => []
  | (k, v) :: rest, a => if k = a then rest else (k, v) :: eraseA rest a

/-- Dict assignment: update an existing key in place, else append. -/
def insertA {α β : Type} [DecidableEq α] : List (α × β) → α → β → List (α × β)
  | [], a, b => [(a, b)]
  | (k, v) :: rest, a, b =>
    if k = a then (a, b) :: rest else (k, v) :: insertA rest a b

/-- Update the value stored under a key, if present. -/
def modifyA {α β : Type} [DecidableEq α] (f : β → β) : List (α × β) → α → List (α × β)
  | [], _ => []
  | (k, v) :: rest, a =>
    if k = a then (k, f v) :: rest else (k, v) :: modifyA f rest a

/-- Class-level state of `Session` (source lines 49-51): the `_sessions`
registry, the `_last_session` reference (by name; at the entry of every
class-method call it refers to a registered session or is `None`), the
`_pid_map` dict, and the counter numbering `CalledProcessError` objects. -/
structure SessState where
  sessions : List (String × Session) := []
  last_session : Option String := none
  pid_map : List (PKey × Nat) := []
  errCount : Nat := 0
deriving Repr

/-- The `IGNORE_USERS` tuple (source line 31). -/
def IGNORE_USERS : List String := ["lightdm"]

/-- `Session._display_from_pid` (source lines 189-198): read the process
command line and return its first argument starting with `":"`. -/
def display_from_pid (env : SessEnv) (pid : Nat) : Option String :=
  match env.cmdline pid with
  | none => none
  | some args => args.find? (fun a => a.startsWith ":")

/-- `Session.get_display` (source lines 90-103) as called from `is_active`
(so the `Display` property fetch uses the same oracle answer `i`).  Returns
the display, the updated session (its `_display` cache may be filled), the
updated class state (a dead pid binding may be dropped) and the effects
(`BacklightManager.turn_on()` is invoked at source line 101 when the bound
pid yields no display).  A display obtained through the pid fallback is not
cached (source lines 98-102). -/
def get_display (env : SessEnv) (st : SessState) (s : Session) (i : SessInfo) :
    Option String × SessState × List Effect :=
  match s.display with
  | some d => (some d, st, [])
  | none =>
    match i.display with
    | some d =>
      let s1 := { s with display := some d }
      (some d, { st with sessions := insertA st.sessions s.name s1 }, [])
    | none =>
      match lookupA st.pid_map (PKey.sess s.name) with
      | some pid =>
        match display_from_pid env pid with
        | none =>
          (none, { st with pid_map := eraseA st.pid_map (PKey.sess s.name) },
           [Effect.turnOn])
        | some d => (some d, st, [])
      | none => (none, st, [])

/-- `Session.is_active` (source lines 72-88).  On `CalledProcessError` the
watcher is cancelled and the session is removed from `_sessions` and
`_pid_map` (lines 75-80).  Otherwise `_user` is recorded, ignored users are
never active, and activity requires `Active == "yes"`, a non-empty `Seat`,
and a resolvable display (evaluated left to right with short-circuiting, as
at lines 84-88).  The updated instance is written back into the registry. -/
def is_active (env : SessEnv) (st : SessState) (s : Session) :
    Bool × SessState × List Effect :=
  match env.info s.name with
  | none =>
    (false,
     { st with sessions := eraseA st.sessions s.name
               pid_map := eraseA st.pid_map (PKey.sess s.name) },
     [])
  | some i =>
    let s1 := { s with user := some i.user }
    let st1 := { st with sessions := insertA st.sessions s.name s1 }
    if i.user ∈ IGNORE_USERS then (false, st1, [])
    else if i.active && i.seat then
      let r := get_display env st1 s1 i
      (r.1.isSome, r.2.1, r.2.2)
    else (false, st1, [])

/-- `Session._bind_pid` (source lines 144-187): skip pids already present
among the values of `_pid_map`; on RPC failure store the pid under the fresh
exception object (line 169); on success store it under the resolved session
id. -/
def bind_pid (env : SessEnv) (st : SessState) (pid : Nat) : SessState :=
  if pid ∈ st.pid_map.map Prod.snd then st
  else
    match env.getSessionByPID pid with
    | none =>
      { st with pid_map := st.pid_map ++ [(PKey.err st.errCount, pid)]
                errCount := st.errCount + 1 }
    | some path =>
      { st with pid_map := insertA st.pid_map (PKey.sess (env.sessionIdOf path)) pid }

/-- The loop at source lines 219-220: bind every display-server pid. -/
def bindPids (env : SessEnv) : SessState → List Nat → SessState
  | st, [] => st
  | st, p :: rest => bindPids env (bind_pid env st p) rest

/-- The loop at source lines 213-217 over (a snapshot of) the tracked
sessions: the first active one is promoted to `_last_session`, its watcher is
started, and the loop reports `true` (the Python `return False` of
`refresh_sessions`).  Sessions deleted by their own `is_active` call are
looked up again and skipped. -/
def scanSessions (env : SessEnv) : SessState → List Effect → List String →
    Bool × SessState × List Effect
  | st, effs, [] => (false, st, effs)
  | st, effs, n :: rest =>
    match lookupA st.sessions n with
    | none => scanSessions env st effs rest
    | some s =>
      let r := is_active env st s
      if r.1 then
        (true,
         { r.2.1 with last_session := some n
                      sessions := modifyA Session.start r.2.1.sessions n },
         effs ++ r.2.2)
      else scanSessions env r.2.1 (effs ++ r.2.2) rest

/-- The loop at source lines 222-227: register every newly-seen session name
and check it for activity once; every active new session is promoted and gets
a watcher (the loop does not stop at the first one). -/
def addNewSessions (env : SessEnv) : SessState → List Effect → List String →
    SessState × List Effect
  | st, effs, [] => (st, effs)
  | st, effs, n :: rest =>
    if (lookupA st.sessions n).isSome then addNewSessions env st effs rest
    else
      let s0 : Session := { name := n }
      let st1 := { st with sessions := st.sessions ++ [(n, s0)] }
      let r := is_active env st1 s0
      if r.1 then
        addNewSessions env
          { r.2.1 with last_session := some n
                       sessions := modifyA Session.start r.2.1.sessions n }
          (effs ++ r.2.2) rest
      else addNewSessions env r.2.1 (effs ++ r.2.2) rest

/-- `Session.refresh_sessions` (source lines 209-228).  Step 1: if
`_last_session` is set and still active, return `false`.  Step 2: scan the
tracked sessions, promoting the first active one.  Step 3: clear
`_last_session`, rebuild pid bindings, list sessions anew, register the new
names and promote/start the active ones — and then return `true`
unconditionally (source line 228). -/
def refresh_sessions (env : SessEnv) (st : SessState) :
    Bool × SessState × List Effect :=
  let step1 : SessState × List Effect × Bool :=
    match st.last_session with
    | none => (st, [], false)
    | some lname =>
      match lookupA st.sessions lname with
      | none => (st, [], false)
      | some s =>
        let r := is_active env st s
        (r.2.1, r.2.2, r.1)
  if step1.2.2 then (false, step1.1, step1.2.1)
  else
    let stA := step1.1
    let scan := scanSessions env stA step1.2.1 (stA.sessions.map Prod.fst)
    if scan.1 then (false, scan.2.1, scan.2.2)
    else
      let stB := { scan.2.1 with last_session := none }
      let stC := bindPids env stB env.xPids
      let add := addNewSessions env stC scan.2.2 env.listSessions
      (true, add.1, add.2)

/-- The `timer` coroutine after its sleep expires (source lines 293-296):
refresh the sessions and invoke `BacklightManager.turn_off()` exactly when
`refresh_sessions` returned `False`. -/
def timer (env : SessEnv) (st : SessState) : SessState × List Effect :=
  let r := refresh_sessions env st
  if r.1 then (r.2.1, r.2.2) else (r.2.1, r.2.2 ++ [Effect.turnOff])

/-- Number of sessions whose watcher task is currently running. -/
def watcherCount (st : SessState) : Nat :=
  (st.sessions.filter (fun p => p.2.task)).length

/-! ## Concrete scenarios -/

/-- Environment in which the single tracked session `"s1"` is active. -/
def envActive : SessEnv :=
  { info := fun n => if n = "s1" then some ⟨true, true, "u", some ":0"⟩ else none
    xPids := [], getSessionByPID := fun _ => none, sessionIdOf := fun _ => ""
    cmdline := fun _ => none, listSessions := [] }

/-- Registry state tracking the active session `"s1"` as last active, with its
watcher running. -/
def stActive : SessState :=
  { sessions := [("s1", { name := "s1", display := some ":0", task := true
                          user := some "u" })]
    last_session := some "s1" }

/-- Environment for a registry with no tracked sessions in which the OS lists
one new, active session `"s1"`. -/
def envNewSession : SessEnv :=
  { info := fun n => if n = "s1" then some ⟨true, true, "alice", some ":0"⟩ else none
    xPids := [], getSessionByPID := fun _ => none, sessionIdOf := fun _ => ""
    cmdline := fun _ => none, listSessions := ["s1"] }

/-- Parametric single-new-session environment: the OS lists exactly the new
session `nm`, active, seated, owned by `u`, with display `d`. -/
def mkNewSessEnv (nm u d : String) : SessEnv :=
  { info := fun m => if m = nm then some ⟨true, true, u, some d⟩ else none
    xPids := [], getSessionByPID := fun _ => none, sessionIdOf := fun _ => ""
    cmdline := fun _ => none, listSessions := [nm] }

/-- Environment in which the OS lists two new sessions `"a"` and `"b"`, both
active with their own displays. -/
def envTwoNew : SessEnv :=
  { info := fun n =>
      if n = "a" then some ⟨true, true, "u1", some ":0"⟩
      else if n = "b" then some ⟨true, true, "u2", some ":1"⟩ else none
    xPids := [], getSessionByPID := fun _ => none, sessionIdOf := fun _ => ""
    cmdline := fun _ => none, listSessions := ["a", "b"] }

/-- Environment in which the `GetSessionByPID` RPC fails for every pid. -/
def envRpcFail : SessEnv :=
  { info := fun _ => none, xPids := [7], getSessionByPID := fun _ => none
    sessionIdOf := fun _ => "", cmdline := fun _ => none, listSessions := [] }

/-- Registry state whose `_pid_map` already holds pid `7` under a caught
exception object. -/
def stErrBound : SessState := { pid_map := [(PKey.err 0, 7)] }

/-! ## Backlight lemmas -/

/-- The invariant holds at startup. -/
lemma inv_init (h : Nat) : Inv (mkInit h) := by
  simp [Inv, mkInit, taskOK]

/-- Every scheduler step of the backlight subsystem preserves the invariant. -/
lemma inv_preserved {s s' : BState} (hstep : BStep s s') (hs : Inv s) : Inv s' := by
  obtain ⟨io, sb, cb, hw, w, tk⟩ := s
  obtain ⟨h1, h2, h3⟩ := hs
  cases hstep with
  | reqOff =>
    cases tk with
    | none =>
      have hred : turn_off ⟨io, sb, cb, hw, w, none⟩ =
          ⟨io, sb, cb, hw, w, some .createdOff⟩ := by simp [turn_off]
      rw [hred]
      exact ⟨h1, h2, by simp [taskOK]⟩
    | some t =>
      by_cases hd : t.dir = .off
      · have hred : turn_off ⟨io, sb, cb, hw, w, some t⟩ =
            ⟨io, sb, cb, hw, w, some t⟩ := by simp [turn_off, hd]
        rw [hred]
        exact ⟨h1, h2, h3⟩
      · have hred : turn_off ⟨io, sb, cb, hw, w, some t⟩ =
            ⟨io, sb, cb, hw, w, some .createdOff⟩ := by simp [turn_off, hd]
        rw [hred]
        exact ⟨h1, h2, by simp [taskOK]⟩
  | reqOn =>
    cases tk with
    | none =>
      have hred : turn_on ⟨io, sb, cb, hw, w, none⟩ =
          ⟨io, sb, cb, hw, w, some .createdOn⟩ := by simp [turn_on]
      rw [hred]
      exact ⟨h1, h2, by simp [taskOK]⟩
    | some t =>
      by_cases hd : t.dir = .on
      · have hred : turn_on ⟨io, sb, cb, hw, w, some t⟩ =
            ⟨io, sb, cb, hw, w, some t⟩ := by simp [turn_on, hd]
        rw [hred]
        exact ⟨h1, h2, h3⟩
      · have hred : turn_on ⟨io, sb, cb, hw, w, some t⟩ =
            ⟨io, sb, cb, hw, w, some .createdOn⟩ := by simp [turn_on, hd]
        rw [hred]
        exact ⟨h1, h2, by simp [taskOK]⟩
  | start =>
    cases tk with
    | none => exact ⟨h1, h2, h3⟩
    | some t =>
      cases t with
      | createdOff =>
        cases io with
        | true =>
          have hred : startBody ⟨true, sb, cb, hw, w, some .createdOff⟩ =
              ⟨true, sb, cb, hw, w, some .doneOff⟩ := by simp [startBody]
          rw [hred]
          exact ⟨h1, h2, by simp [taskOK]⟩
        | false =>
          have hred : startBody ⟨false, sb, cb, hw, w, some .createdOff⟩ =
              ⟨true, hw, cb, hw, w, some (.runOff hw)⟩ := by simp [startBody]
          rw [hred]
          exact ⟨h2, h2, by simp [taskOK]⟩
      | createdOn =>
        cases io with
        | false =>
          have hred : startBody ⟨false, sb, cb, hw, w, some .createdOn⟩ =
              ⟨false, sb, cb, hw, w, some .doneOn⟩ := by simp [startBody]
          rw [hred]
          exact ⟨h1, h2, by simp [taskOK]⟩
        | true =>
          by_cases hle : sb ≤ cb
          · have hred : startBody ⟨true, sb, cb, hw, w, some .createdOn⟩ =
                ⟨false, sb, cb, hw, w, some .doneOn⟩ := by simp [startBody, hle]
            rw [hred]
            exact ⟨h1, h2, by simp [taskOK]⟩
          · have hred : startBody ⟨true, sb, cb, hw, w, some .createdOn⟩ =
                ⟨true, sb, cb, hw, w, some (.runOn (cb + 1) sb)⟩ := by
              simp [startBody, hle]
            rw [hred]
            refine ⟨h1, h2, ?_⟩
            show sb = sb ∧ cb < cb + 1 ∧ cb + 1 ≤ sb
            omega
      | runOff i => exact ⟨h1, h2, h3⟩
      | runOn n stop => exact ⟨h1, h2, h3⟩
      | doneOff => exact ⟨h1, h2, h3⟩
      | doneOn => exact ⟨h1, h2, h3⟩
  | tickStep =>
    cases tk with
    | none => exact ⟨h1, h2, h3⟩
    | some t =>
      cases t with
      | createdOff => exact ⟨h1, h2, h3⟩
      | createdOn => exact ⟨h1, h2, h3⟩
      | runOff i =>
        have h3' : i ≤ sb := h3
        by_cases hi : i = 0
        · subst hi
          have hred : tick ⟨io, sb, cb, hw, w, some (.runOff 0)⟩ =
              ⟨io, sb, 0, 0, w ++ [0], some .doneOff⟩ := by simp [tick]
          rw [hred]
          exact ⟨Nat.zero_le _, Nat.le_refl 0, by simp [taskOK]⟩
        · have hred : tick ⟨io, sb, cb, hw, w, some (.runOff i)⟩ =
              ⟨io, sb, i, i, w ++ [i], some (.runOff (i - 1))⟩ := by simp [tick, hi]
          rw [hred]
          refine ⟨h3', Nat.le_refl i, ?_⟩
          show i - 1 ≤ sb
          omega
      | runOn n stop =>
        have h3' : stop = sb ∧ cb < n ∧ n ≤ stop := h3
        by_cases hn : n = stop
        · subst hn
          have hred : tick ⟨io, sb, cb, hw, w, some (.runOn n n)⟩ =
              ⟨false, sb, cb, n, w ++ [n], some .doneOn⟩ := by simp [tick]
          rw [hred]
          exact ⟨h1, by show cb ≤ n; omega, by simp [taskOK]⟩
        · have hred : tick ⟨io, sb, cb, hw, w, some (.runOn n stop)⟩ =
              ⟨io, sb, cb, n, w ++ [n], some (.runOn (n + 1) stop)⟩ := by
            simp [tick, hn]
          rw [hred]
          refine ⟨h1, by show cb ≤ n; omega, ?_⟩
          show stop = sb ∧ cb < n + 1 ∧ n + 1 ≤ stop
          omega
      | doneOff => exact ⟨h1, h2, h3⟩
      | doneOn => exact ⟨h1, h2, h3⟩

/-- The invariant holds in every reachable backlight state. -/
lemma inv_reach {h : Nat} {s : BState} (hr : Reach h s) : Inv s := by
  unfold Reach at hr
  induction hr with
  | refl => exact inv_init h
  | tail _ hstep ih => exact inv_preserved hstep ih

/-- Running `m + 1` ticks of an off-fade whose next pending write is `k + m`
writes `k + m, k + m - 1, ..., k` and stops with `k` as the current
brightness; the task is finished exactly when `k = 0`. -/
lemma ticks_runOff : ∀ (m : Nat) (s : BState) (k : Nat),
    s.task = some (.runOff (k + m)) →
    ticks (m + 1) s =
      { s with current_brightness := k, hw := k
               writes := s.writes ++ (List.range' k (m + 1)).reverse
               task := some (if k = 0 then FadeTask.doneOff else FadeTask.runOff (k - 1)) } := by
  intro m
  induction m with
  | zero =>
    intro s k h
    obtain ⟨io, sb, cb, hw, w, tk⟩ := s
    simp only at h
    subst h
    simp [ticks, tick]
  | succ d ih =>
    intro s k h
    obtain ⟨io, sb, cb, hw, w, tk⟩ := s
    simp only at h
    subst h
    show ticks (d + 1) (tick _) = _
    have hne : k + (d + 1) ≠ 0 := by omega
    have htick : tick ⟨io, sb, cb, hw, w, some (.runOff (k + (d + 1)))⟩ =
        ⟨io, sb, k + (d + 1), k + (d + 1), w ++ [k + (d + 1)],
         some (.runOff (k + d))⟩ := by
      simp [tick, hne]
    rw [htick, ih _ k (by simp)]
    simp [List.range'_1_concat]

/-- In a mid-off-fade or finished-off-fade task the direction tag is `off`. -/
lemma dir_off_aux (k : Nat) :
    (if k = 0 then FadeTask.doneOff else FadeTask.runOff (k - 1)).dir = FadeDir.off := by
  by_cases hk : k = 0 <;> simp [hk, FadeTask.dir]

/-- Running `d + 1` ticks of an on-fade whose pending writes are
`n, ..., n + d` writes them in increasing order and then clears `is_off`. -/
lemma ticks_runOn : ∀ (d : Nat) (s : BState) (n : Nat),
    s.task = some (.runOn n (n + d)) →
    ticks (d + 1) s =
      { s with hw := n + d, writes := s.writes ++ List.range' n (d + 1)
               is_off := false, task := some .doneOn } := by
  intro d
  induction d with
  | zero =>
    intro s n h
    obtain ⟨io, sb, cb, hw, w, tk⟩ := s
    simp only at h
    subst h
    simp [ticks, tick]
  | succ d ih =>
    intro s n h
    obtain ⟨io, sb, cb, hw, w, tk⟩ := s
    simp only at h
    subst h
    show ticks (d + 1) (tick _) = _
    have hne : n ≠ n + (d + 1) := by omega
    have htick : tick ⟨io, sb, cb, hw, w, some (.runOn n (n + (d + 1)))⟩ =
        ⟨io, sb, cb, n, w ++ [n], some (.runOn (n + 1) (n + (d + 1)))⟩ := by
      simp [tick, hne]
    rw [htick, ih _ (n + 1) (by simp; omega)]
    simp [List.range'_succ]
    omega

/-- Full off-fade phase: from a fresh `ON` state with hardware brightness
`k + m`, requesting `turn_off`, starting the body and running `m + 1` ticks
writes down to `k`. -/
lemma off_phase_eq (k m : Nat) :
    ticks (m + 1) (startBody (turn_off (mkInit (k + m)))) =
      ⟨true, k + m, k, k, (List.range' k (m + 1)).reverse,
       some (if k = 0 then FadeTask.doneOff else FadeTask.runOff (k - 1))⟩ := by
  have hoff : startBody (turn_off (mkInit (k + m))) =
      ⟨true, k + m, 0, k + m, [], some (.runOff (k + m))⟩ := by
    simp [mkInit, turn_off, startBody]
  rw [hoff, ticks_runOff m _ k rfl]
  simp

/-- On-fade phase after the off-fade of `off_phase_eq` is cancelled by
`turn_on` with current brightness `k`: running the body and `m` ticks writes
`k + 1, ..., k + m` and ends with `is_off = false`. -/
lemma on_phase_eq (k m : Nat) :
    ticks m (startBody (turn_on (ticks (m + 1) (startBody (turn_off (mkInit (k + m))))))) =
      ⟨false, k + m, k, k + m,
       (List.range' k (m + 1)).reverse ++ List.range' (k + 1) m, some .doneOn⟩ := by
  rw [off_phase_eq k m]
  have h2 : turn_on (⟨true, k + m, k, k, (List.range' k (m + 1)).reverse,
      some (if k = 0 then FadeTask.doneOff else FadeTask.runOff (k - 1))⟩ : BState) =
      ⟨true, k + m, k, k, (List.range' k (m + 1)).reverse, some .createdOn⟩ := by
    simp [turn_on, dir_off_aux]
  rw [h2]
  cases m with
  | zero => simp [ticks, startBody]
  | succ d =>
    have hle : ¬ (k + (d + 1) ≤ k) := by omega
    have h3 : startBody (⟨true, k + (d + 1), k, k,
        (List.range' k (d + 1 + 1)).reverse, some .createdOn⟩ : BState) =
        ⟨true, k + (d + 1), k, k, (List.range' k (d + 1 + 1)).reverse,
         some (.runOn (k + 1) (k + 1 + d))⟩ := by
      simp [startBody, hle]
      omega
    rw [h3, ticks_runOn d _ (k + 1) rfl]
    simp
    omega

/-! ## Session-directory lemmas -/

/-- `get_display` never requests `turn_off` (its only effect is the
`turn_on` at source line 101). -/
lemma get_display_noOff (env : SessEnv) (st : SessState) (s : Session) (i : SessInfo) :
    Effect.turnOff ∉ (get_display env st s i).2.2 := by
  cases hd : s.display with
  | some d => simp [get_display, hd]
  | none =>
    cases hi : i.display with
    | some d => simp [get_display, hd, hi]
    | none =>
      cases hp : lookupA st.pid_map (PKey.sess s.name) with
      | none => simp [get_display, hd, hi, hp]
      | some pid =>
        cases hdp : display_from_pid env pid with
        | none => simp [get_display, hd, hi, hp, hdp]
        | some d => simp [get_display, hd, hi, hp, hdp]

/-- `is_active` never requests `turn_off`. -/
lemma is_active_noOff (env : SessEnv) (st : SessState) (s : Session) :
    Effect.turnOff ∉ (is_active env st s).2.2 := by
  cases hi : env.info s.name with
  | none => simp [is_active, hi]
  | some i =>
    by_cases hu : i.user ∈ IGNORE_USERS
    · simp [is_active, hi, hu]
    · by_cases ha : (i.active && i.seat) = true
      · simpa [is_active, hi, hu, ha] using get_display_noOff env _ _ i
      · simp [is_active, hi, hu, ha]

/-- The tracked-session scan only accumulates `turn_on` effects. -/
lemma scanSessions_noOff (env : SessEnv) :
    ∀ (names : List String) (st : SessState) (effs : List Effect),
      Effect.turnOff ∉ effs →
      Effect.turnOff ∉ (scanSessions env st effs names).2.2 := by
  intro names
  induction names with
  | nil => intro st effs h; simpa [scanSessions] using h
  | cons n rest ih =>
    intro st effs h
    simp only [scanSessions]
    split
    · exact ih st effs h
    · next s hl =>
      split
      · simp only []
        exact fun hmem => (List.mem_append.mp hmem).elim h (is_active_noOff env st s)
      · exact ih _ _
          (fun hmem => (List.mem_append.mp hmem).elim h (is_active_noOff env st s))

/-- The new-session registration loop only accumulates `turn_on` effects. -/
lemma addNewSessions_noOff (env : SessEnv) :
    ∀ (names : List String) (st : SessState) (effs : List Effect),
      Effect.turnOff ∉ effs →
      Effect.turnOff ∉ (addNewSessions env st effs names).2 := by
  intro names
  induction names with
  | nil => intro st effs h; simpa [addNewSessions] using h
  | cons n rest ih =>
    intro st effs h
    simp only [addNewSessions]
    split
    · exact ih st effs h
    · split
      · exact ih _ _
          (fun hmem => (List.mem_append.mp hmem).elim h (is_active_noOff env _ _))
      · exact ih _ _
          (fun hmem => (List.mem_append.mp hmem).elim h (is_active_noOff env _ _))

/-- `refresh_sessions` never requests `turn_off` itself. -/
lemma refresh_noOff (env : SessEnv) (st : SessState) :
    Effect.turnOff ∉ (refresh_sessions env st).2.2 := by
  cases hls : st.last_session with
  | none =>
    by_cases hscan : (scanSessions env st [] (st.sessions.map Prod.fst)).1 = true
    · simpa [refresh_sessions, hls, hscan] using
        scanSessions_noOff env _ st [] (by simp)
    · simpa [refresh_sessions, hls, hscan] using
        addNewSessions_noOff env _ _ _ (scanSessions_noOff env _ st [] (by simp))
  | some lname =>
    cases hlk : lookupA st.sessions lname with
    | none =>
      by_cases hscan : (scanSessions env st [] (st.sessions.map Prod.fst)).1 = true
      · simpa [refresh_sessions, hls, hlk, hscan] using
          scanSessions_noOff env _ st [] (by simp)
      · simpa [refresh_sessions, hls, hlk, hscan] using
          addNewSessions_noOff env _ _ _ (scanSessions_noOff env _ st [] (by simp))
    | some s =>
      by_cases hact : (is_active env st s).1 = true
      · simpa [refresh_sessions, hls, hlk, hact] using is_active_noOff env st s
      · by_cases hscan : (scanSessions env (is_active env st s).2.1
            (is_active env st s).2.2 ((is_active env st s).2.1.sessions.map Prod.fst)).1 = true
        · simpa [refresh_sessions, hls, hlk, hact, hscan] using
            scanSessions_noOff env _ _ _ (is_active_noOff env st s)
        · simpa [refresh_sessions, hls, hlk, hact, hscan] using
            addNewSessions_noOff env _ _ _
              (scanSessions_noOff env _ _ _ (is_active_noOff env st s))

/-- Error-keyed `_pid_map` entries survive a transition from `st` to `st'`. -/
def ErrKept (st st' : SessState) : Prop :=
  ∀ e p, (PKey.err e, p) ∈ st.pid_map → (PKey.err e, p) ∈ st'.pid_map

lemma errKept_of_eq {st st' : SessState} (h : st.pid_map = st'.pid_map) :
    ErrKept st st' := fun _ _ hm => h ▸ hm

lemma errKept_trans {a b c : SessState} (h1 : ErrKept a b) (h2 : ErrKept b c) :
    ErrKept a c := fun e p hm => h2 e p (h1 e p hm)

/-- Deleting a session-keyed entry keeps every error-keyed entry. -/
lemma mem_eraseA_err : ∀ (l : List (PKey × Nat)) (nm : String) (e p : Nat),
    (PKey.err e, p) ∈ l → (PKey.err e, p) ∈ eraseA l (PKey.sess nm) := by
  intro l nm e p
  induction l with
  | nil => intro h; simp at h
  | cons hd tl ih =>
    intro h
    obtain ⟨k, v⟩ := hd
    rw [List.mem_cons] at h
    by_cases hk : k = PKey.sess nm
    · subst hk
      simp only [eraseA, if_pos rfl]
      rcases h with h1 | h1
      · exact absurd h1 (by simp)
      · exact h1
    · simp only [eraseA, if_neg hk]
      rcases h with h1 | h1
      · exact List.mem_cons.mpr (Or.inl h1)
      · exact List.mem_cons.mpr (Or.inr (ih h1))

/-- Writing a session-keyed entry keeps every error-keyed entry. -/
lemma mem_insertA_err : ∀ (l : List (PKey × Nat)) (nm : String) (v e p : Nat),
    (PKey.err e, p) ∈ l → (PKey.err e, p) ∈ insertA l (PKey.sess nm) v := by
  intro l nm v e p
  induction l with
  | nil => intro h; simp at h
  | cons hd tl ih =>
    intro h
    obtain ⟨k, w⟩ := hd
    rw [List.mem_cons] at h
    by_cases hk : k = PKey.sess nm
    · subst hk
      simp only [insertA, if_pos rfl]
      rcases h with h1 | h1
      · exact absurd h1 (by simp)
      · exact List.mem_cons.mpr (Or.inr h1)
    · simp only [insertA, if_neg hk]
      rcases h with h1 | h1
      · exact List.mem_cons.mpr (Or.inl h1)
      · exact List.mem_cons.mpr (Or.inr (ih h1))

lemma bind_pid_errKept (env : SessEnv) (st : SessState) (pid : Nat) :
    ErrKept st (bind_pid env st pid) := by
  unfold bind_pid
  split
  · exact errKept_of_eq rfl
  · split
    · exact fun e p hm => List.mem_append_left _ hm
    · exact fun e p hm => mem_insertA_err _ _ _ _ _ hm

lemma bindPids_errKept (env : SessEnv) :
    ∀ (pids : List Nat) (st : SessState), ErrKept st (bindPids env st pids) := by
  intro pids
  induction pids with
  | nil => intro st; exact errKept_of_eq rfl
  | cons p rest ih =>
    intro st
    exact errKept_trans (bind_pid_errKept env st p) (ih _)

lemma get_display_errKept (env : SessEnv) (st : SessState) (s : Session) (i : SessInfo) :
    ErrKept st (get_display env st s i).2.1 := by
  unfold get_display
  split
  · exact errKept_of_eq rfl
  · split
    · exact errKept_of_eq rfl
    · split
      · split
        · exact fun e p hm => mem_eraseA_err _ _ _ _ hm
        · exact errKept_of_eq rfl
      · exact errKept_of_eq rfl

lemma is_active_errKept (env : SessEnv) (st : SessState) (s : Session) :
    ErrKept st (is_active env st s).2.1 := by
  unfold is_active
  split
  · exact fun e p hm => mem_eraseA_err _ _ _ _ hm
  · split
    · exact errKept_of_eq rfl
    · split
      · exact fun e p hm => get_display_errKept env _ _ _ e p hm
      · exact errKept_of_eq rfl

lemma scanSessions_errKept (env : SessEnv) :
    ∀ (names : List String) (st : SessState) (effs : List Effect),
      ErrKept st (scanSessions env st effs names).2.1 := by
  intro names
  induction names with
  | nil => intro st effs; exact errKept_of_eq rfl
  | cons n rest ih =>
    intro st effs
    simp only [scanSessions]
    split
    · exact ih st effs
    · next s hl =>
      split
      · exact fun e p hm => is_active_errKept env st s e p hm
      · exact fun e p hm => ih _ _ e p (is_active_errKept env st s e p hm)

lemma addNewSessions_errKept (env : SessEnv) :
    ∀ (names : List String) (st : SessState) (effs : List Effect),
      ErrKept st (addNewSessions env st effs names).1 := by
  intro names
  induction names with
  | nil => intro st effs; exact errKept_of_eq rfl
  | cons n rest ih =>
    intro st effs
    simp only [addNewSessions]
    split
    · exact ih st effs
    · split
      · exact fun e p hm => ih _ _ e p (is_active_errKept env _ _ e p hm)
      · exact fun e p hm => ih _ _ e p (is_active_errKept env _ _ e p hm)

/-- Error-keyed `_pid_map` entries survive a whole `refresh_sessions` call:
nothing in the session machinery ever deletes them. -/
lemma refresh_errKept (env : SessEnv) (st : SessState) :
    ErrKept st (refresh_sessions env st).2.1 := by
  cases hls : st.last_session with
  | none =>
    by_cases hscan : (scanSessions env st [] (st.sessions.map Prod.fst)).1 = true
    · simp only [refresh_sessions, hls]
      simp [hscan]
      intro e p hm
      exact scanSessions_errKept env _ st [] e p hm
    · simp only [refresh_sessions, hls]
      simp [hscan]
      intro e p hm
      exact addNewSessions_errKept env _ _ _ e p
        (bindPids_errKept env _ _ e p (scanSessions_errKept env _ st [] e p hm))
  | some lname =>
    cases hlk : lookupA st.sessions lname with
    | none =>
      by_cases hscan : (scanSessions env st [] (st.sessions.map Prod.fst)).1 = true
      · simp only [refresh_sessions, hls, hlk]
        simp [hscan]
        intro e p hm
        exact scanSessions_errKept env _ st [] e p hm
      · simp only [refresh_sessions, hls, hlk]
        simp [hscan]
        intro e p hm
        exact addNewSessions_errKept env _ _ _ e p
          (bindPids_errKept env _ _ e p (scanSessions_errKept env _ st [] e p hm))
    | some s =>
      by_cases hact : (is_active env st s).1 = true
      · simp only [refresh_sessions, hls, hlk]
        simp [hact]
        intro e p hm
        exact is_active_errKept env st s e p hm
      · by_cases hscan : (scanSessions env (is_active env st s).2.1
            (is_active env st s).2.2 ((is_active env st s).2.1.sessions.map Prod.fst)).1 = true
        · simp only [refresh_sessions, hls, hlk]
          simp [hact, hscan]
          intro e p hm
          exact scanSessions_errKept env _ _ _ e p (is_active_errKept env st s e p hm)
        · simp only [refresh_sessions, hls, hlk]
          simp [hact, hscan]
          intro e p hm
          exact addNewSessions_errKept env _ _ _ e p
            (bindPids_errKept env _ _ e p
              (scanSessions_errKept env _ _ _ e p
                (is_active_errKept env st s e p hm)))

/-! ## Claim theorems: fade controller -/

/-- C5: for every sequence of `turn_off`/`turn_on` requests and
cancellations — i.e. in every reachable state of the fade controller — the
inequality `0 ≤ current_brightness ≤ saved_brightness` holds, in particular
at every observed tick of every fade. -/
theorem brightness_bounds_invariant (h : Nat) (s : BState) (hr : Reach h s) :
    0 ≤ s.current_brightness ∧ s.current_brightness ≤ s.saved_brightness :=
  ⟨Nat.zero_le _, (inv_reach hr).1⟩

/-- Witness for C5: the bounds hold in the concrete state reached after a
`turn_off` request, its body start, and one tick, from brightness 5. -/
theorem brightness_bounds_invariant_witness :
    0 ≤ (tick (startBody (turn_off (mkInit 5)))).current_brightness ∧
    (tick (startBody (turn_off (mkInit 5)))).current_brightness ≤
      (tick (startBody (turn_off (mkInit 5)))).saved_brightness :=
  brightness_bounds_invariant 5 _
    (Relation.ReflTransGen.tail
      (Relation.ReflTransGen.tail
        (Relation.ReflTransGen.tail Relation.ReflTransGen.refl (BStep.reqOff _))
        (BStep.start _))
      (BStep.tickStep _))

/-- C6 counterexample: when `turn_off` starts from the `ON` state with
hardware brightness 5 and its animation runs to completion (the task is
finished), the write log is not `[4, 3, 2, 1, 0]` — the loop
`range(5, -1, -1)` writes the captured value `5` first. -/
theorem turn_off_writes_counterexample :
    (ticks 6 (startBody (turn_off (mkInit 5)))).task = some FadeTask.doneOff ∧
    (ticks 6 (startBody (turn_off (mkInit 5)))).writes ≠ [4, 3, 2, 1, 0] := by
  decide

/-- C6 amended: when `turn_off` starts from the `ON` state with hardware
brightness 5 and its animation runs to completion, the values written to the
brightness resource are exactly `5, 4, 3, 2, 1, 0` in that order (the
captured value first, then each decrement down to zero), and afterwards
`is_off = true`. -/
theorem turn_off_writes_full_descent :
    (ticks 6 (startBody (turn_off (mkInit 5)))).writes = [5, 4, 3, 2, 1, 0] ∧
    (ticks 6 (startBody (turn_off (mkInit 5)))).is_off = true ∧
    (ticks 6 (startBody (turn_off (mkInit 5)))).task = some FadeTask.doneOff := by
  decide

/-- C7: if the off-fade started from brightness `k + m` is cancelled by
`turn_on` after last writing brightness `k` (the current brightness is then
`k`), the subsequent fade-to-on animation writes exactly
`k + 1, ..., k + m` — strictly increasing up to the saved brightness — ends
with `is_off = false`, and never writes `0` (never resets the brightness to
`0` first).  Concretely, with saved brightness `5` and cancellation after
writing `3`, the complete log is `5, 4, 3` then `4, 5`, ending
`is_off = false`. -/
theorem fade_reversal_resumes (k m : Nat) :
    (ticks (m + 1) (startBody (turn_off (mkInit (k + m))))).current_brightness = k ∧
    (ticks m (startBody (turn_on (ticks (m + 1)
        (startBody (turn_off (mkInit (k + m)))))))).writes
      = (List.range' k (m + 1)).reverse ++ List.range' (k + 1) m ∧
    (ticks m (startBody (turn_on (ticks (m + 1)
        (startBody (turn_off (mkInit (k + m)))))))).is_off = false ∧
    (0 : Nat) ∉ List.range' (k + 1) m ∧
    (ticks 2 (startBody (turn_on (ticks 3
        (startBody (turn_off (mkInit 5))))))).writes = [5, 4, 3, 4, 5] ∧
    (ticks 2 (startBody (turn_on (ticks 3
        (startBody (turn_off (mkInit 5))))))).is_off = false := by
  refine ⟨?_, ?_, ?_, ?_, by decide, by decide⟩
  · rw [off_phase_eq k m]
  · rw [on_phase_eq k m]
  · rw [on_phase_eq k m]
  · simp [List.mem_range'_1]

/-- C8: a fade request whose direction tag equals the tag of the task in the
slot is a no-op (the state, including the task, is untouched), and a request
with the opposite tag replaces the slot with the newly created task (the
in-flight fade is cancelled first); the slot holds at most one task. -/
theorem fade_request_tags (s : BState) (t : FadeTask) (h : s.task = some t) :
    (t.dir = FadeDir.off → turn_off s = s) ∧
    (t.dir ≠ FadeDir.off → turn_off s = { s with task := some FadeTask.createdOff }) ∧
    (t.dir = FadeDir.on → turn_on s = s) ∧
    (t.dir ≠ FadeDir.on → turn_on s = { s with task := some FadeTask.createdOn }) := by
  refine ⟨?_, ?_, ?_, ?_⟩ <;> intro hd <;> simp [turn_off, turn_on, h, hd]

/-- Witness for C8: a second `turn_off` request while an off-task is in the
slot changes nothing. -/
theorem fade_request_tags_witness :
    turn_off (turn_off (mkInit 1)) = turn_off (mkInit 1) :=
  (fade_request_tags (turn_off (mkInit 1)) FadeTask.createdOff (by decide)).1 (by decide)

/-- C3 counterexample: after the off-fade from brightness 5 has run three
ticks it is still mid-animation (its task still has pending writes), yet
`is_off` is already `true`; and cancelling it there via `turn_on` leaves
`is_off = true`, not `false`. -/
theorem is_off_observable_mid_fade :
    (ticks 3 (startBody (turn_off (mkInit 5)))).is_off = true ∧
    (ticks 3 (startBody (turn_off (mkInit 5)))).task = some (FadeTask.runOff 2) ∧
    (turn_on (ticks 3 (startBody (turn_off (mkInit 5))))).is_off = true := by
  decide

/-- C3 amended: `is_off` is set to `true` at the start of the fade-to-off
body, before any brightness write; consequently it is observable mid-fade,
and a cancellation mid-fade (by a tick-less `turn_on` request) leaves
`is_off = true`. -/
theorem is_off_set_at_fade_start :
    (∀ s : BState, s.is_off = false → s.task = some FadeTask.createdOff →
      (startBody s).is_off = true ∧ (startBody s).writes = s.writes) ∧
    (∀ (s : BState) (i : Nat), s.task = some (FadeTask.runOff i) →
      (tick s).is_off = s.is_off ∧ (turn_on s).is_off = s.is_off) := by
  constructor
  · intro s h1 h2
    constructor <;> simp [startBody, h1, h2]
  · intro s i h
    constructor <;> simp [tick, turn_on, h, FadeTask.dir]

/-- Witness for the amended C3: starting the off-fade body from the fresh
`ON` state with brightness 5 sets `is_off` before writing anything. -/
theorem is_off_set_at_fade_start_witness :
    (startBody (turn_off (mkInit 5))).is_off = true ∧
    (startBody (turn_off (mkInit 5))).writes = (turn_off (mkInit 5)).writes :=
  is_off_set_at_fade_start.1 (turn_off (mkInit 5)) (by decide) (by decide)

/-- C10: the `_turn_off` body returns immediately, without writing anything,
whenever `is_off` is already `true`; a fade-to-on cancelled before its final
write leaves `is_off = true` (ticks before the last keep `is_off`, and the
cancelling `turn_off` request does not touch it); concretely, after a
completed off-fade from 5, a `turn_on` cancelled after writing `1, 2`, and a
subsequent `turn_off` whose body runs, the state keeps `is_off = true` while
the hardware brightness holds the partial value `2` and no further write
occurred. -/
theorem turn_off_skipped_when_already_off :
    (∀ s : BState, s.is_off = true → s.task = some FadeTask.createdOff →
      startBody s = { s with task := some FadeTask.doneOff }) ∧
    (∀ (s : BState) (n stop : Nat), s.task = some (FadeTask.runOn n stop) →
      n ≠ stop →
      (tick s).is_off = s.is_off ∧ (turn_off s).is_off = s.is_off ∧
      (turn_off s).task = some FadeTask.createdOff) ∧
    ((startBody (turn_off (ticks 2 (startBody (turn_on
        (ticks 6 (startBody (turn_off (mkInit 5))))))))).is_off = true ∧
     (startBody (turn_off (ticks 2 (startBody (turn_on
        (ticks 6 (startBody (turn_off (mkInit 5))))))))).hw = 2 ∧
     (startBody (turn_off (ticks 2 (startBody (turn_on
        (ticks 6 (startBody (turn_off (mkInit 5))))))))).writes
       = [5, 4, 3, 2, 1, 0, 1, 2]) := by
  refine ⟨?_, ?_, by decide⟩
  · intro s h1 h2
    simp [startBody, h1, h2]
  · intro s n stop h hn
    refine ⟨?_, ?_, ?_⟩ <;> simp [tick, turn_off, h, hn, FadeTask.dir]

/-- Witness for C10: the off-body invoked while `is_off = true` (here after a
partially-run on-fade was cancelled) finishes without any state change. -/
theorem turn_off_skipped_witness :
    startBody (turn_off (ticks 2 (startBody (turn_on
        (ticks 6 (startBody (turn_off (mkInit 5)))))))) =
      { turn_off (ticks 2 (startBody (turn_on
          (ticks 6 (startBody (turn_off (mkInit 5)))))))
        with task := some FadeTask.doneOff } :=
  turn_off_skipped_when_already_off.1
    (turn_off (ticks 2 (startBody (turn_on (ticks 6 (startBody (turn_off (mkInit 5))))))))
    (by decide) (by decide)

/-! ## Claim theorems: session directory and timer -/

/-- C1 counterexample: on a timer expiry while the tracked session is active,
`refresh_sessions` returns `false` — and the timer then invokes
`BacklightManager.turn_off` (the claim says `turn_off` is never invoked in
this case and is invoked exactly when the refresh returns `true`). -/
theorem timer_invokes_turn_off_while_active :
    (refresh_sessions envActive stActive).1 = false ∧
    (timer envActive stActive).2.count Effect.turnOff = 1 := by
  decide

/-- C1 amended: on expiry the timer calls `refresh_sessions` and invokes
`FadeController.turnOff` if and only if `refresh_sessions` returns `false`
(source line 295 is `if not await Session.refresh_sessions()`): an expiry in
which a tracked session is active has the refresh return `false` and
`turn_off` invoked exactly once; an expiry in which nobody is active has the
refresh return `true` and `turn_off` is never invoked. -/
theorem timer_turn_off_iff_refresh_false (env : SessEnv) (st : SessState) :
    (timer env st).2.count Effect.turnOff =
      if (refresh_sessions env st).1 then 0 else 1 := by
  unfold timer
  by_cases hr : (refresh_sessions env st).1 = true
  · simp [hr]
    exact List.count_eq_zero.mpr (refresh_noOff env st)
  · simp [hr]
    exact List.count_eq_zero.mpr (refresh_noOff env st)

/-- C2 counterexample: with no tracked sessions and the OS listing one new,
active session, the rescan of `refresh_sessions` adds it, promotes it to
last-active and starts its watcher — and the call nevertheless returns `true`
(the claim says it does not return `true` in this situation). -/
theorem refresh_returns_true_after_promoting :
    (refresh_sessions envNewSession {}).1 = true ∧
    (refresh_sessions envNewSession {}).2.1.last_session = some "s1" ∧
    Option.map Session.task
      (lookupA (refresh_sessions envNewSession {}).2.1.sessions "s1") = some true := by
  decide

/-- C2 amended: when the steps before the rescan find no active tracked
session, `refresh_sessions` returns `true` regardless of the rescan: a
newly-seen active session is promoted to last-active and its watcher is
started, but the call still returns `true` (source line 228 returns `True`
unconditionally after the rescan loop). -/
theorem refresh_promotes_new_active_still_true (nm u d : String)
    (hu : u ∉ IGNORE_USERS) :
    (refresh_sessions (mkNewSessEnv nm u d) {}).1 = true ∧
    (refresh_sessions (mkNewSessEnv nm u d) {}).2.1.last_session = some nm ∧
    Option.map Session.task
      (lookupA (refresh_sessions (mkNewSessEnv nm u d) {}).2.1.sessions nm) = some true := by
  have hu' : ¬ (u = "lightdm") := by simpa [IGNORE_USERS] using hu
  refine ⟨?_, ?_, ?_⟩ <;>
    simp [refresh_sessions, mkNewSessEnv, scanSessions, addNewSessions, bindPids,
          is_active, get_display, lookupA, insertA, modifyA, Session.start,
          IGNORE_USERS, hu']

/-- Witness for the amended C2, at a concrete new session. -/
theorem refresh_promotes_new_active_still_true_witness :
    (refresh_sessions (mkNewSessEnv "s2" "bob" ":1") {}).1 = true ∧
    (refresh_sessions (mkNewSessEnv "s2" "bob" ":1") {}).2.1.last_session = some "s2" ∧
    Option.map Session.task
      (lookupA (refresh_sessions (mkNewSessEnv "s2" "bob" ":1") {}).2.1.sessions "s2")
      = some true :=
  refresh_promotes_new_active_still_true "s2" "bob" ":1" (by decide)

/-- C4 counterexample: one `refresh_sessions` call that registers two new
active sessions starts a watcher for each of them, so two watcher tasks run
at the same instant — the claimed global single-watcher invariant fails. -/
theorem two_watchers_run_concurrently :
    watcherCount (refresh_sessions envTwoNew {}).2.1 = 2 ∧
    ¬ watcherCount (refresh_sessions envTwoNew {}).2.1 ≤ 1 := by
  decide

/-- C4 amended: `Session.start` is a no-op only when a watcher is already
running for that same session (the check at source line 136 is per-instance),
and otherwise starts one; watchers of different sessions are independent, and
a single refresh can leave two watchers running concurrently. -/
theorem watcher_start_checks_only_own_session :
    (∀ s : Session, s.task = true → Session.start s = s) ∧
    (∀ s : Session, (Session.start s).task = true) ∧
    watcherCount (refresh_sessions envTwoNew {}).2.1 = 2 := by
  refine ⟨?_, ?_, by decide⟩
  · intro s h
    simp [Session.start, h]
  · intro s
    by_cases h : s.task <;> simp [Session.start, h]

/-- Witness for the amended C4: `start` on a session whose own watcher runs
changes nothing. -/
theorem watcher_start_checks_only_own_session_witness :
    Session.start { name := "a", display := none, task := true, user := none } =
      { name := "a", display := none, task := true, user := none } :=
  watcher_start_checks_only_own_session.1
    { name := "a", display := none, task := true, user := none } rfl

/-- C9: when the `GetSessionByPID` RPC fails for a pid not yet bound,
`_bind_pid` still inserts an entry into `_pid_map` — keyed by the caught
exception object, with the pid as its value; any pid already appearing among
the table's values is skipped by the entry guard, and error-keyed entries are
never removed by any later `refresh_sessions` call, so such a pid is
permanently excluded from all future binding attempts. -/
theorem bind_pid_error_permanence (env : SessEnv) (st : SessState) (pid : Nat) :
    (pid ∉ st.pid_map.map Prod.snd → env.getSessionByPID pid = none →
      bind_pid env st pid =
        { st with pid_map := st.pid_map ++ [(PKey.err st.errCount, pid)]
                  errCount := st.errCount + 1 }) ∧
    (pid ∈ st.pid_map.map Prod.snd → bind_pid env st pid = st) ∧
    (∀ e, (PKey.err e, pid) ∈ st.pid_map →
      pid ∈ st.pid_map.map Prod.snd ∧
      (PKey.err e, pid) ∈ (refresh_sessions env st).2.1.pid_map) := by
  refine ⟨?_, ?_, ?_⟩
  · intro h1 h2
    simp [bind_pid, h1, h2]
  · intro h
    simp [bind_pid, h]
  · intro e hm
    exact ⟨List.mem_map_of_mem Prod.snd hm, refresh_errKept env st e pid hm⟩

/-- Witness for C9: binding pid `7` is a no-op once `7` is stored under an
exception key. -/
theorem bind_pid_error_permanence_witness :
    bind_pid envRpcFail stErrBound 7 = stErrBound :=
  (bind_pid_error_permanence envRpcFail stErrBound 7).2.1 (by decide)

end Kbsv

